import Mathlib

/-!
Verification of the page-enhancement script `src/2026/script.js`
(tech-f-est.github.io): a shallow embedding of its five components
(language switcher, theme manager, mobile menu, smooth scroll,
scroll-triggered fade-in) and proofs of the specified properties.
-/

namespace TechFest

/-! JavaScript truthiness of a `localStorage.getItem` / `getAttribute`
result: `null` and the empty string are falsy, every other string truthy. -/

/-- JS truthiness of a nullable string (`null` and `""` are falsy). -/
def jsTruthy : Option String → Bool
  | none => false
  | some s => s ≠ ""

/-! ## Theme manager (`ThemeManager` in script.js)

State: `currentTheme` (the field `this.currentTheme`), the document root
`data-theme` attribute, and the `localStorage` key `theme`.  The OS signal
`window.matchMedia('(prefers-color-scheme: dark)')` is modelled as an
`Option Bool`: `none` when `window.matchMedia` is absent, `some b` when it
is present and reports `matches = b`. -/

structure ThemeState where
  currentTheme : String
  dataTheme : Option String
  themeStore : Option String
deriving DecidableEq

/-- Embedding of `ThemeManager.getInitialTheme` (script.js lines 75-88):
saved value from `localStorage` if truthy, else `'dark'` when
`window.matchMedia` exists and matches dark, else `'light'`. -/
def getInitialTheme (savedTheme : Option String) (mmDark : Option Bool) : String :=
  if jsTruthy savedTheme then savedTheme.getD ""
  else if mmDark = some true then "dark"
  else "light"

/-- Embedding of `ThemeManager.setTheme` (lines 106-110): sets the field,
the root `data-theme` attribute, and the `localStorage` key. -/
def setTheme (theme : String) (_st : ThemeState) : ThemeState :=
  { currentTheme := theme, dataTheme := some theme, themeStore := some theme }

/-- Embedding of the state effect of `ThemeManager.init` together with the
constructor (lines 70-73, 90-94): resolve the initial theme from the store
and the OS signal, then apply it via `setTheme`. -/
def themeInit (mmDark : Option Bool) (st : ThemeState) : ThemeState :=
  setTheme (getInitialTheme st.themeStore mmDark) st

/-- Embedding of the `.theme-toggle` click handler (lines 99-102):
flip `'light'` to `'dark'` and anything else to `'light'`, then `setTheme`. -/
def toggleTheme (st : ThemeState) : ThemeState :=
  setTheme (if st.currentTheme = "light" then "dark" else "light") st

/-- Embedding of the media-query change handler installed by
`ThemeManager.watchSystemTheme` (lines 112-122): if no truthy persisted
theme exists at event time, re-resolve to the OS-reported value. -/
def osThemeChange (eMatches : Bool) (st : ThemeState) : ThemeState :=
  if jsTruthy st.themeStore then st
  else setTheme (if eMatches then "dark" else "light") st

/-- Claim C1: for every combination of stored theme preference (absent, or a
stored `light`/`dark` value) and OS color-scheme signal (absent capability,
not-dark, or dark), the initial theme resolution returns the stored
preference when present, otherwise `dark` exactly when the OS signals dark,
otherwise `light`. -/
theorem C1_initial_theme_resolution (saved : Option String) (mm : Option Bool)
    (hs : saved = none ∨ saved = some "light" ∨ saved = some "dark") :
    getInitialTheme saved mm =
      match saved with
      | some t => t
      | none => if mm = some true then "dark" else "light" := by
  rcases hs with h | h | h <;> subst h <;>
    simp [getInitialTheme, jsTruthy]

/-- Witness for C1 at concrete inputs covering the hypothesis. -/
theorem C1_witness :
    getInitialTheme (some "dark") (some false) = "dark" ∧
    getInitialTheme none (some true) = "dark" ∧
    getInitialTheme none none = "light" :=
  ⟨C1_initial_theme_resolution (some "dark") (some false) (Or.inr (Or.inr rfl)),
   C1_initial_theme_resolution none (some true) (Or.inl rfl),
   C1_initial_theme_resolution none none (Or.inl rfl)⟩

/-- A theme resolved by `getInitialTheme` is never the empty string, hence
always truthy once persisted. -/
theorem getInitialTheme_ne_empty (saved : Option String) (mm : Option Bool) :
    getInitialTheme saved mm ≠ "" := by
  unfold getInitialTheme
  cases saved with
  | none =>
      simp [jsTruthy]
      split <;> simp
  | some s =>
      by_cases h : s = ""
      · simp [jsTruthy, h]
        split <;> simp
      · simp [jsTruthy, h]

/-- A truthy stored value is returned unchanged by `getInitialTheme`. -/
theorem getInitialTheme_some (r : String) (hr : r ≠ "") (mm : Option Bool) :
    getInitialTheme (some r) mm = r := by
  simp [getInitialTheme, jsTruthy, hr]

/-- Claim C2: once a truthy theme value is persisted, every sequence of
OS scheme-change notifications leaves the whole theme state (applied theme,
root attribute, persisted value) unchanged; and a single notification
arriving while no persisted preference exists re-resolves the applied
theme (field and root attribute) to the OS-reported value. -/
theorem C2_os_changes_respect_persisted (st : ThemeState) (evs : List Bool) (m : Bool) :
    (jsTruthy st.themeStore = true →
      evs.foldl (fun s e => osThemeChange e s) st = st) ∧
    (st.themeStore = none →
      (osThemeChange m st).currentTheme = (if m then "dark" else "light") ∧
      (osThemeChange m st).dataTheme = some (if m then "dark" else "light") ∧
      (osThemeChange m st).themeStore = some (if m then "dark" else "light")) := by
  constructor
  · intro hpers
    induction evs with
    | nil => rfl
    | cons e rest ih =>
        have hstep : osThemeChange e st = st := by
          unfold osThemeChange ; rw [hpers] ; simp
        simpa [List.foldl, hstep] using ih
  · intro hnone
    unfold osThemeChange
    rw [hnone]
    simp [jsTruthy, setTheme]

/-- Witness for C2: a persisted `light` preference survives a dark OS
notification, and with an empty store a dark notification applies `dark`. -/
theorem C2_witness :
    ([true] : List Bool).foldl (fun s e => osThemeChange e s)
        ⟨"light", some "light", some "light"⟩ = ⟨"light", some "light", some "light"⟩ ∧
    (osThemeChange true ⟨"light", some "light", none⟩).currentTheme = "dark" :=
  ⟨(C2_os_changes_respect_persisted ⟨"light", some "light", some "light"⟩ [true] true).1
      (by decide),
   ((C2_os_changes_respect_persisted ⟨"light", some "light", none⟩ [true] true).2
      rfl).1⟩

/-- Claim C3: for every initial store state and OS signal, resolve-and-apply
(`init`) persists the resolved theme — also when it was auto-detected from
the OS signal — and running it a second time returns the identical state:
same applied theme, stored value unchanged. -/
theorem C3_theme_resolution_idempotent (mm : Option Bool) (st : ThemeState) :
    (themeInit mm st).themeStore = some (getInitialTheme st.themeStore mm) ∧
    themeInit mm (themeInit mm st) = themeInit mm st := by
  constructor
  · rfl
  · unfold themeInit setTheme
    have h : getInitialTheme (some (getInitialTheme st.themeStore mm)) mm =
        getInitialTheme st.themeStore mm :=
      getInitialTheme_some _ (getInitialTheme_ne_empty st.themeStore mm) mm
    simp [h]

/-- Claim C4: from a current theme in the set containing `light` and `dark`,
the toggle transition yields exactly the other theme, applies it to the
document root, persists it, and toggling twice restores the original. -/
theorem C4_toggle_flips_and_persists (st : ThemeState)
    (h : st.currentTheme = "light" ∨ st.currentTheme = "dark") :
    (st.currentTheme = "light" → (toggleTheme st).currentTheme = "dark") ∧
    (st.currentTheme = "dark" → (toggleTheme st).currentTheme = "light") ∧
    (toggleTheme st).currentTheme ≠ st.currentTheme ∧
    (toggleTheme st).dataTheme = some (toggleTheme st).currentTheme ∧
    (toggleTheme st).themeStore = some (toggleTheme st).currentTheme ∧
    (toggleTheme (toggleTheme st)).currentTheme = st.currentTheme := by
  rcases h with h | h <;> rw [h] <;> simp [toggleTheme, setTheme, h]

/-- Witness for C4 starting from a `light` theme state. -/
theorem C4_witness :
    (toggleTheme ⟨"light", some "light", some "light"⟩).currentTheme = "dark" ∧
    (toggleTheme (toggleTheme ⟨"light", some "light", some "light"⟩)).currentTheme =
      "light" :=
  ⟨(C4_toggle_flips_and_persists ⟨"light", some "light", some "light"⟩
      (Or.inl rfl)).1 rfl,
   (C4_toggle_flips_and_persists ⟨"light", some "light", some "light"⟩
      (Or.inl rfl)).2.2.2.2.2⟩

/-! ## Language switcher (`LanguageManager` in script.js)

An element carries its tag name, the optional `data-fr` / `data-en`
attributes, its `textContent` and its `placeholder`.  The document state
carries the manager's `currentLang` field, the root `lang` attribute, the
`localStorage` key `lang`, the translatable elements, presence of the two
indicator elements and their `active` classes. -/

structure Elem where
  tag : String
  dataFr : Option String
  dataEn : Option String
  textContent : String
  placeholder : String
deriving DecidableEq

/-- Result of `element.getAttribute` applied to `data-` followed by the
language code (script.js line 33). -/
def getLangData (e : Elem) (lang : String) : Option String :=
  if lang = "fr" then e.dataFr
  else if lang = "en" then e.dataEn
  else none

/-- An element is input-like when the branch at lines 36-37 takes the
placeholder path (`INPUT` or `TEXTAREA` tag). -/
def isInputLike (e : Elem) : Bool :=
  e.tag = "INPUT" || e.tag = "TEXTAREA"

/-- Per-element effect of `LanguageManager.setLanguage` (lines 31-44): only
elements matched by the selector with both a `data-fr` and a `data-en`
attribute are visited; the looked-up text is written to the placeholder for
input-like elements and to the text content otherwise, and only if truthy. -/
def updateLangElem (lang : String) (e : Elem) : Elem :=
  if e.dataFr.isSome && e.dataEn.isSome then
    let text := getLangData e lang
    if jsTruthy text then
      if isInputLike e then { e with placeholder := text.getD "" }
      else { e with textContent := text.getD "" }
    else e
  else e

structure LangDoc where
  currentLang : String
  docLang : String
  langStore : Option String
  elements : List Elem
  hasLangFr : Bool
  hasLangEn : Bool
  frActive : Bool
  enActive : Bool
deriving DecidableEq

/-- Embedding of `LanguageManager.updateLanguageButton` (lines 50-63):
guarded on both indicator elements being present, then exactly one of the
two `active` classes is set according to the current language. -/
def updateLanguageButton (d : LangDoc) : LangDoc :=
  if d.hasLangFr && d.hasLangEn then
    if d.currentLang = "fr" then { d with frActive := true, enActive := false }
    else { d with frActive := false, enActive := true }
  else d

/-- Embedding of `LanguageManager.setLanguage` (lines 25-48): records the
language in the field, the `localStorage` key and the document root `lang`
attribute, rewrites every element carrying both locale attributes, then
updates the indicator. -/
def setLanguage (lang : String) (d : LangDoc) : LangDoc :=
  updateLanguageButton
    { d with
      currentLang := lang
      langStore := some lang
      docLang := lang
      elements := d.elements.map (updateLangElem lang) }

/-- The user-visible text the specification speaks about: the placeholder
for input-like elements, the text content otherwise. -/
def visibleText (e : Elem) : String :=
  if isInputLike e then e.placeholder else e.textContent

/-- The indicator update never touches the element list. -/
theorem updateLanguageButton_elements (d : LangDoc) :
    (updateLanguageButton d).elements = d.elements := by
  unfold updateLanguageButton
  split
  · split <;> rfl
  · rfl

/-- `setLanguage` maps `updateLangElem` over the element list. -/
theorem setLanguage_elements (lang : String) (d : LangDoc) :
    (setLanguage lang d).elements = d.elements.map (updateLangElem lang) := by
  unfold setLanguage
  rw [updateLanguageButton_elements]

/-- A document whose sole translatable element has text `Bonjour`, with
`data-fr` present and nonempty but `data-en` present and empty. -/
def emptyAttrDoc : LangDoc :=
  { currentLang := "fr", docLang := "fr", langStore := some "fr"
    elements := [⟨"DIV", some "Bonjour", some "", "Bonjour", ""⟩]
    hasLangFr := true, hasLangEn := true, frActive := true, enActive := false }

/-- Counterexample to claim C5 as stated: the single element of
`emptyAttrDoc` carries both locale attributes, its `data-en` value is the
empty string, yet after `setLanguage "en"` its visible text is still
`Bonjour`, not the empty `data-en` value. -/
theorem C5_counterexample :
    (∀ e ∈ emptyAttrDoc.elements, e.dataFr.isSome ∧ e.dataEn.isSome) ∧
    (setLanguage "en" emptyAttrDoc).elements.map visibleText = ["Bonjour"] ∧
    emptyAttrDoc.elements.map (fun e => e.dataEn) = [some ""] ∧
    ("Bonjour" : String) ≠ "" := by
  refine ⟨?_, ?_, ?_, ?_⟩ <;> decide

/-- Claim C5 (amended): for every element of the document that carries both
locale attributes with nonempty values, after `setLanguage "en"` the
element's image in the document has visible text equal to its `data-en`
value, and after toggling back with `setLanguage "fr"` the image has
visible text equal to its `data-fr` value.  (The amendment restricts the
claim to nonempty attribute values: the code skips an element whose
looked-up attribute value is the empty string, leaving its previous text.) -/
theorem C5_language_applies_locale_text (d : LangDoc) (e : Elem)
    (tf te : String) (he : e ∈ d.elements)
    (hf : e.dataFr = some tf) (hen : e.dataEn = some te)
    (hft : tf ≠ "") (het : te ≠ "") :
    updateLangElem "en" e ∈ (setLanguage "en" d).elements ∧
    visibleText (updateLangElem "en" e) = te ∧
    updateLangElem "fr" (updateLangElem "en" e) ∈
      (setLanguage "fr" (setLanguage "en" d)).elements ∧
    visibleText (updateLangElem "fr" (updateLangElem "en" e)) = tf := by
  have hmem1 : updateLangElem "en" e ∈ (setLanguage "en" d).elements := by
    rw [setLanguage_elements]
    exact List.mem_map_of_mem _ he
  have hmem2 : updateLangElem "fr" (updateLangElem "en" e) ∈
      (setLanguage "fr" (setLanguage "en" d)).elements := by
    rw [setLanguage_elements]
    exact List.mem_map_of_mem _ hmem1
  refine ⟨hmem1, ?_, hmem2, ?_⟩ <;>
    cases hil : isInputLike e <;>
      simp [updateLangElem, getLangData, jsTruthy, visibleText, hf, hen,
        hft, het, hil, isInputLike] at hil ⊢ <;>
      simp [hil, hft, het]

/-- Witness for C5 (amended) on a one-element document with nonempty
locale values. -/
theorem C5_witness :
    visibleText (updateLangElem "en" ⟨"DIV", some "Bonjour", some "Hello", "Bonjour", ""⟩) =
        "Hello" ∧
    visibleText (updateLangElem "fr"
        (updateLangElem "en" ⟨"DIV", some "Bonjour", some "Hello", "Bonjour", ""⟩)) =
      "Bonjour" :=
  ⟨(C5_language_applies_locale_text
      { currentLang := "fr", docLang := "fr", langStore := none
        elements := [⟨"DIV", some "Bonjour", some "Hello", "Bonjour", ""⟩]
        hasLangFr := true, hasLangEn := true, frActive := true, enActive := false }
      ⟨"DIV", some "Bonjour", some "Hello", "Bonjour", ""⟩
      "Bonjour" "Hello" (by decide) rfl rfl (by decide) (by decide)).2.1,
   (C5_language_applies_locale_text
      { currentLang := "fr", docLang := "fr", langStore := none
        elements := [⟨"DIV", some "Bonjour", some "Hello", "Bonjour", ""⟩]
        hasLangFr := true, hasLangEn := true, frActive := true, enActive := false }
      ⟨"DIV", some "Bonjour", some "Hello", "Bonjour", ""⟩
      "Bonjour" "Hello" (by decide) rfl rfl (by decide) (by decide)).2.2.2⟩

/-- Claim C10: every invocation of `setLanguage` also sets the document
root element's `lang` attribute to the active language code (besides the
field, the persisted key, the element texts and the indicator). -/
theorem C10_setLanguage_sets_root_lang (lang : String) (d : LangDoc) :
    (setLanguage lang d).docLang = lang ∧
    (setLanguage lang d).langStore = some lang ∧
    (setLanguage lang d).currentLang = lang := by
  unfold setLanguage updateLanguageButton
  split
  · split <;> exact ⟨rfl, rfl, rfl⟩
  · exact ⟨rfl, rfl, rfl⟩

/-! ## Mobile menu (`MobileMenu` in script.js)

State: the `active` class of the panel (`.nav-menu`), the `active` class of
the trigger (`.mobile-menu-toggle`), and the trigger's `aria-expanded`
attribute.  Events are the four transitions wired in `init`: a click on the
trigger, a click outside both elements, a click on a link inside the panel,
and a window resize carrying the new viewport width. -/

structure MenuState where
  menuActive : Bool
  toggleActive : Bool
  ariaExpanded : String
deriving DecidableEq

/-- Embedding of `MobileMenu.toggleMenu` (lines 165-170): toggle the
`active` class on panel and trigger, then set `aria-expanded` from the
panel's new class. -/
def toggleMenu (s : MenuState) : MenuState :=
  { menuActive := !s.menuActive
    toggleActive := !s.toggleActive
    ariaExpanded := if !s.menuActive then "true" else "false" }

/-- Embedding of `MobileMenu.closeMenu` (lines 172-176). -/
def closeMenu (_s : MenuState) : MenuState :=
  { menuActive := false, toggleActive := false, ariaExpanded := "false" }

inductive MenuEvent where
  | triggerClick
  | outsideClick
  | linkClick
  | resize (w : Nat)
deriving DecidableEq

/-- One step of the menu: the listeners wired by `MobileMenu.init`
(lines 135-163).  A trigger click toggles (the document-level listener
skips it because the trigger contains the click target); an outside click
closes; a click on a link inside the panel closes (the document-level
listener skips it because the panel contains the target); a resize closes
only when the new width exceeds 767. -/
def menuStep (s : MenuState) : MenuEvent → MenuState
  | .triggerClick => toggleMenu s
  | .outsideClick => closeMenu s
  | .linkClick => closeMenu s
  | .resize w => if w > 767 then closeMenu s else s

/-- The closed initial state. -/
def menuClosed : MenuState := ⟨false, false, "false"⟩

/-- The three observables agree with the open/closed state: the trigger
class mirrors the panel class and `aria-expanded` spells the panel class. -/
def menuConsistent (s : MenuState) : Prop :=
  s.toggleActive = s.menuActive ∧
  s.ariaExpanded = (if s.menuActive then "true" else "false")

/-- Every single step preserves consistency of the three observables. -/
theorem menuStep_consistent (s : MenuState) (e : MenuEvent)
    (h : menuConsistent s) : menuConsistent (menuStep s e) := by
  obtain ⟨h1, h2⟩ := h
  cases e with
  | triggerClick =>
      cases hm : s.menuActive <;>
        simp [menuStep, toggleMenu, menuConsistent, h1, hm]
  | outsideClick => simp [menuStep, closeMenu, menuConsistent]
  | linkClick => simp [menuStep, closeMenu, menuConsistent]
  | resize w =>
      by_cases hw : w > 767 <;>
        simp [menuStep, closeMenu, menuConsistent, hw, h1, h2]

/-- Claim C6: starting from the closed state, after every sequence of menu
transitions (trigger clicks toggling; outside clicks, panel-link clicks and
resizes past 767 width units closing), the trigger's state class, the
panel's state class and the trigger's `aria-expanded` attribute all agree
with the resulting open/closed state. -/
theorem C6_menu_observables_agree (evs : List MenuEvent) :
    menuConsistent (evs.foldl menuStep menuClosed) := by
  have general : ∀ (l : List MenuEvent) (s : MenuState),
      menuConsistent s → menuConsistent (l.foldl menuStep s) := by
    intro l
    induction l with
    | nil => intro s hs ; exact hs
    | cons e rest ih =>
        intro s hs
        exact ih (menuStep s e) (menuStep_consistent s e hs)
  exact general evs menuClosed ⟨rfl, rfl⟩

/-! ## Smooth scroll (`SmoothScroll` in script.js)

The click handler on an anchor whose `href` starts with `#` is a function
of the `href` string, the result of `document.querySelector(href)` (the
target's `getBoundingClientRect().top` when a target exists), and
`window.pageYOffset`.  Its observable effect is whether `preventDefault`
was called and which `window.scrollTo` top value, if any, was requested. -/

structure ScrollOutcome where
  prevented : Bool
  scrollTarget : Option Int
deriving DecidableEq

/-- Embedding of the anchor click handler of `SmoothScroll.init`
(lines 190-211): a bare `#` href only prevents default; a missing target
leaves default navigation alone; otherwise default is prevented and a
smooth scroll to the target top plus page offset minus the 80 header
offset is requested. -/
def anchorClick (href : String) (targetTop : Option Int) (pageYOffset : Int) :
    ScrollOutcome :=
  if href = "#" then ⟨true, none⟩
  else
    match targetTop with
    | some top => ⟨true, some (top + pageYOffset - 80)⟩
    | none => ⟨false, none⟩

/-- Claim C7: a bare `#` href suppresses default navigation and issues no
scroll request; an href with no matching element leaves default navigation
untouched and issues no scroll request; an href matching an element with
bounding top P under scroll offset S suppresses default navigation and
requests a scroll to exactly P + S - 80. -/
theorem C7_anchor_click_outcomes (href : String) (targetTop : Option Int)
    (S : Int) :
    (href = "#" → anchorClick href targetTop S = ⟨true, none⟩) ∧
    (href ≠ "#" → targetTop = none → anchorClick href targetTop S = ⟨false, none⟩) ∧
    (∀ P : Int, href ≠ "#" → targetTop = some P →
      anchorClick href targetTop S = ⟨true, some (P + S - 80)⟩) := by
  refine ⟨?_, ?_, ?_⟩
  · intro h
    simp [anchorClick, h]
  · intro h hn
    simp [anchorClick, h, hn]
  · intro P h hp
    simp [anchorClick, h, hp]

/-- Witness for C7 at the three kinds of concrete inputs. -/
theorem C7_witness :
    anchorClick "#" none 100 = ⟨true, none⟩ ∧
    anchorClick "#missing-id" none 100 = ⟨false, none⟩ ∧
    anchorClick "#about" (some 500) 100 = ⟨true, some 520⟩ :=
  ⟨(C7_anchor_click_outcomes "#" none 100).1 rfl,
   (C7_anchor_click_outcomes "#missing-id" none 100).2.1 (by decide) rfl,
   (C7_anchor_click_outcomes "#about" (some 500) 100).2.2 500 (by decide) rfl⟩

/-! ## Scroll-triggered fade-in (`ScrollAnimations` in script.js)

Per observed card element: the inline `opacity`, `transform` and
`transition` styles.  Observer events for one element are the stream of
`entry.isIntersecting` booleans delivered for it. -/

structure CardStyle where
  opacity : String
  transform : String
  transition : String
deriving DecidableEq

/-- Style written by the setup loop (lines 250-255) before observing. -/
def fadeSetup : CardStyle :=
  ⟨"0", "translateY(20px)", "opacity 0.6s ease, transform 0.6s ease"⟩

/-- Embedding of the observer callback (lines 230-237) for one entry of one
element: reveal on an intersecting entry, leave the style alone otherwise. -/
def fadeStep (s : CardStyle) (isIntersecting : Bool) : CardStyle :=
  if isIntersecting then { s with opacity := "1", transform := "translateY(0)" }
  else s

/-- The style of an observed element after the setup and a stream of
observer events. -/
def runFade (evs : List Bool) : CardStyle :=
  evs.foldl fadeStep fadeSetup

/-- Folding the observer callback reveals the element exactly when some
event reported it intersecting, and otherwise leaves the style unchanged. -/
theorem foldl_fadeStep (evs : List Bool) (s : CardStyle) :
    evs.foldl fadeStep s =
      if evs.any id then { s with opacity := "1", transform := "translateY(0)" }
      else s := by
  induction evs generalizing s with
  | nil => rfl
  | cons b rest ih =>
      cases b with
      | false => simpa [List.foldl, fadeStep] using ih s
      | true =>
          rw [List.foldl, ih]
          by_cases h : rest.any id <;> simp [fadeStep, h]

/-- Claim C8: an observed card has opacity `0` and a 20-unit downward
offset after setup and before any intersection event; the first event
reporting it intersecting gives it opacity `1` and zero offset; and no
sequence of later non-intersecting events ever reverts it: after any event
stream the element is revealed exactly when some event reported it
intersecting, and hidden with the setup style otherwise. -/
theorem C8_fade_in_one_shot (evs : List Bool) :
    (runFade evs).opacity = (if evs.any id then "1" else "0") ∧
    (runFade evs).transform =
      (if evs.any id then "translateY(0)" else "translateY(20px)") ∧
    runFade [] = fadeSetup ∧
    (∀ later : List Bool, later.any id = false →
      (evs ++ later).foldl fadeStep fadeSetup = runFade evs) := by
  refine ⟨?_, ?_, rfl, ?_⟩
  · rw [runFade, foldl_fadeStep]
    by_cases h : evs.any id <;> simp [h, fadeSetup]
  · rw [runFade, foldl_fadeStep]
    by_cases h : evs.any id <;> simp [h, fadeSetup]
  · intro later hl
    rw [List.foldl_append, runFade, foldl_fadeStep, foldl_fadeStep, hl]
    simp

/-- Witness for C8: after a non-intersecting then an intersecting event the
card is revealed, and a later non-intersecting event does not revert it. -/
theorem C8_witness :
    (runFade [false, true]).opacity = "1" ∧
    ([false, true] ++ [false]).foldl fadeStep fadeSetup = runFade [false, true] :=
  ⟨(C8_fade_in_one_shot [false, true]).1,
   (C8_fade_in_one_shot [false, true]).2.2.2 [false] rfl⟩

/-! ## Whole-page safety (all five components)

For the no-exception claim the optional DOM elements are explicit: an
absent element is `none`, and dereferencing it (as the uninstalled, unguarded
handler bodies would) is the failing operation, as in the JavaScript where
member access on `null` throws.  `dispatch` follows the listener wiring of
script.js: a handler body runs only where the code actually installed a
listener, so events aimed at absent elements fall through unchanged. -/

/-- Member access on a nullable value: throws on `null` like JavaScript. -/
def deref {α : Type} : Option α → Except String α
  | none => Except.error "TypeError: cannot read properties of null"
  | some a => Except.ok a

structure Page where
  langSwitchEl : Option Unit
  langDoc : LangDoc
  themeToggleEl : Option Unit
  matchMediaCap : Bool
  theme : ThemeState
  menuToggleEl : Option Unit
  navMenuEl : Option Unit
  menu : MenuState
  cards : List CardStyle
  scrollRequests : List Int
deriving DecidableEq

inductive PageEvent where
  | langSwitchClick
  | themeToggleClick
  | osSchemeChange (m : Bool)
  | menuEvent (me : MenuEvent)
  | anchorLinkClick (href : String) (targetTop : Option Int) (offset : Int)
  | cardIntersection (i : Nat) (inter : Bool)
deriving DecidableEq

/-- Whether script.js installed a handler reacting to the event on this
page: the `.lang-switch` listener needs the switch element (line 17), the
`.theme-toggle` listener its element (line 98), the media-query listener
`window.matchMedia` (line 113), the menu listeners both the trigger and the
panel (line 136).  Anchor clicks and intersection entries arrive per
existing element, so their handlers are always in place. -/
def handlerInstalled (p : Page) : PageEvent → Bool
  | .langSwitchClick => p.langSwitchEl.isSome
  | .themeToggleClick => p.themeToggleEl.isSome
  | .osSchemeChange _ => p.matchMediaCap
  | .menuEvent _ => p.menuToggleEl.isSome && p.navMenuEl.isSome
  | .anchorLinkClick _ _ _ => true
  | .cardIntersection _ _ => true

/-- Deliver one event to the page.  Handler bodies that touch the optional
elements go through `deref`, mirroring the member accesses of the code
(`this.menu.classList`, `this.toggle.setAttribute`, the anchor target's
`getBoundingClientRect`); the guards of script.js decide whether a body
runs at all. -/
def dispatch (p : Page) : PageEvent → Except String Page
  | .langSwitchClick =>
      match p.langSwitchEl with
      | none => Except.ok p
      | some _ =>
          Except.ok { p with
            langDoc := setLanguage
              (if p.langDoc.currentLang = "fr" then "en" else "fr") p.langDoc }
  | .themeToggleClick =>
      match p.themeToggleEl with
      | none => Except.ok p
      | some _ => Except.ok { p with theme := toggleTheme p.theme }
  | .osSchemeChange m =>
      if p.matchMediaCap then Except.ok { p with theme := osThemeChange m p.theme }
      else Except.ok p
  | .menuEvent me =>
      if p.menuToggleEl.isNone || p.navMenuEl.isNone then Except.ok p
      else do
        let _ ← deref p.menuToggleEl
        let _ ← deref p.navMenuEl
        Except.ok { p with menu := menuStep p.menu me }
  | .anchorLinkClick href targetTop offset =>
      if href = "#" then Except.ok p
      else
        match targetTop with
        | none => Except.ok p
        | some _ => do
            let top ← deref targetTop
            Except.ok { p with scrollRequests := p.scrollRequests ++ [top + offset - 80] }
  | .cardIntersection i inter =>
      Except.ok { p with cards := p.cards.set i (fadeStep (p.cards.getD i fadeSetup) inter) }

/-- Claim C9: for every event delivered to any of the five components and
every page state — including ones where a component's expected DOM elements
are absent — the dispatch never throws, and when the component's handler
was never installed for lack of its elements the page is left exactly as it
was (the component does nothing). -/
theorem C9_no_handler_throws (p : Page) (e : PageEvent) :
    (∃ p' : Page, dispatch p e = Except.ok p') ∧
    (handlerInstalled p e = false → dispatch p e = Except.ok p) := by
  cases e with
  | langSwitchClick =>
      cases h : p.langSwitchEl <;>
        simp [dispatch, handlerInstalled, h]
  | themeToggleClick =>
      cases h : p.themeToggleEl <;>
        simp [dispatch, handlerInstalled, h]
  | osSchemeChange m =>
      by_cases h : p.matchMediaCap <;>
        simp [dispatch, handlerInstalled, h]
  | menuEvent me =>
      cases h1 : p.menuToggleEl <;> cases h2 : p.navMenuEl
      · simp [dispatch, handlerInstalled, h1, h2]
      · simp [dispatch, handlerInstalled, h1, h2]
      · simp [dispatch, handlerInstalled, h1, h2]
      · simp [dispatch, handlerInstalled, h1, h2, deref]
        exact ⟨_, rfl⟩
  | anchorLinkClick href targetTop offset =>
      constructor
      · by_cases h : href = "#"
        · exact ⟨p, by simp [dispatch, h]⟩
        · cases ht : targetTop with
          | none => exact ⟨p, by simp [dispatch, h, ht]⟩
          | some top =>
              refine ⟨{ p with
                scrollRequests := p.scrollRequests ++ [top + offset - 80] }, ?_⟩
              subst ht
              simp only [dispatch, if_neg h]
              rfl
      · intro hfalse
        simp [handlerInstalled] at hfalse
  | cardIntersection i inter =>
      constructor
      · exact ⟨_, rfl⟩
      · intro hfalse
        simp [handlerInstalled] at hfalse

/-- Witness for C9: on a page with no menu trigger and no panel, a trigger
click is dispatched without error and changes nothing. -/
theorem C9_witness :
    dispatch
      { langSwitchEl := none
        langDoc := { currentLang := "fr", docLang := "fr", langStore := none
                     elements := [], hasLangFr := false, hasLangEn := false
                     frActive := false, enActive := false }
        themeToggleEl := none, matchMediaCap := false
        theme := ⟨"light", none, none⟩
        menuToggleEl := none, navMenuEl := none, menu := menuClosed
        cards := [], scrollRequests := [] }
      (PageEvent.menuEvent MenuEvent.triggerClick) =
    Except.ok
      { langSwitchEl := none
        langDoc := { currentLang := "fr", docLang := "fr", langStore := none
                     elements := [], hasLangFr := false, hasLangEn := false
                     frActive := false, enActive := false }
        themeToggleEl := none, matchMediaCap := false
        theme := ⟨"light", none, none⟩
        menuToggleEl := none, navMenuEl := none, menu := menuClosed
        cards := [], scrollRequests := [] } :=
  (C9_no_handler_throws _ (PageEvent.menuEvent MenuEvent.triggerClick)).2 rfl

end TechFest
